import Mathlib

/-!
Verification development for the impersonation-risk detection engine of the
streamer-verification repository.  The Python source is shallowly embedded:
pure helpers become Lean functions over `String`, `Int`, `Nat` and `Rat`
(Python floats are modelled as exact rationals), and the orchestrating
`check_user` coroutine becomes a total function over an explicit environment
that supplies the outcome of every external call (database, external API,
image fetch) together with an explicit database-session state.
-/

namespace StreamerVerification

/-! ### Python numeric helpers

`round(x, 2)` in Python rounds half to even.  We model it exactly on `Rat`.
-/

/-- Round a rational to the nearest integer, ties going to the even integer
(the rounding mode of Python `round`).  `Rat.floor` is used rather than the
`⌊ ⌋` notation so the definition evaluates by kernel reduction. -/
def roundHalfEven (q : ℚ) : ℤ :=
  let f := q.floor
  let r := q - (f : ℚ)
  if r < 1/2 then f
  else if 1/2 < r then f + 1
  else if f % 2 = 0 then f else f + 1

/-- Model of Python `round(q, 2)`: round to two decimal places, half to even. -/
def pyRound2 (q : ℚ) : ℚ := (roundHalfEven (q * 100) : ℚ) / 100

theorem rat_floor_eq_floor (q : ℚ) : q.floor = ⌊q⌋ := by
  rw [Rat.floor_def', Rat.floor_def]

theorem floor_le_roundHalfEven (q : ℚ) : ⌊q⌋ ≤ roundHalfEven q := by
  unfold roundHalfEven
  dsimp only
  rw [rat_floor_eq_floor]
  split_ifs <;> omega

theorem roundHalfEven_le_of_le {q : ℚ} {N : ℤ} (h : q ≤ (N : ℚ)) :
    roundHalfEven q ≤ N := by
  unfold roundHalfEven
  dsimp only
  rw [rat_floor_eq_floor]
  by_cases hq : q = (N : ℚ)
  · have hfl : ⌊q⌋ = N := by rw [hq]; exact Int.floor_intCast N
    have hr : q - (⌊q⌋ : ℚ) < 1/2 := by rw [hfl, ← hq]; norm_num
    rw [if_pos hr, hfl]
  · have hlt : q < (N : ℚ) := lt_of_le_of_ne h hq
    have hfl : ⌊q⌋ < N := Int.floor_lt.mpr hlt
    split_ifs <;> omega

theorem le_roundHalfEven_of_le {q : ℚ} {N : ℤ} (h : (N : ℚ) ≤ q) :
    N ≤ roundHalfEven q := by
  have hfl : N ≤ ⌊q⌋ := Int.le_floor.mpr h
  calc N ≤ ⌊q⌋ := hfl
    _ ≤ roundHalfEven q := floor_le_roundHalfEven q

theorem pyRound2_le_of_le {q : ℚ} {N : ℤ} (h : q ≤ (N : ℚ)) :
    pyRound2 q ≤ (N : ℚ) := by
  unfold pyRound2
  have h100 : q * 100 ≤ ((N * 100 : ℤ) : ℚ) := by push_cast; linarith
  have := roundHalfEven_le_of_le h100
  rw [div_le_iff₀ (by norm_num : (0:ℚ) < 100)]
  calc ((roundHalfEven (q * 100) : ℤ) : ℚ) ≤ ((N * 100 : ℤ) : ℚ) := by exact_mod_cast this
    _ = (N : ℚ) * 100 := by push_cast; ring

theorem le_pyRound2_of_le {q : ℚ} {N : ℤ} (h : (N : ℚ) ≤ q) :
    (N : ℚ) ≤ pyRound2 q := by
  unfold pyRound2
  have h100 : ((N * 100 : ℤ) : ℚ) ≤ q * 100 := by push_cast; linarith
  have := le_roundHalfEven_of_le h100
  rw [le_div_iff₀ (by norm_num : (0:ℚ) < 100)]
  calc (N : ℚ) * 100 = ((N * 100 : ℤ) : ℚ) := by push_cast; ring
    _ ≤ ((roundHalfEven (q * 100) : ℤ) : ℚ) := by exact_mod_cast this

/-! ### Username normalization (`_normalize_username`)

Lowercase and strip the characters matched by the regex class of
underscore, dash, whitespace and dot.
-/

/-- Characters removed by the normalization regex (underscore, dash, dot and
ASCII whitespace). -/
def strippedChars : List Char := ['_', '-', '.', ' ', '\t', '\n', '\x0b', '\x0c', '\r']

/-- Model of Python `str.lower` (ASCII case folding suffices for handles). -/
def pyLower (s : String) : String := String.mk (s.toList.map Char.toLower)

/-- Embedding of `_normalize_username`: lowercase, then remove the special
characters in `strippedChars`. -/
def normalize_username (username : String) : String :=
  if username = "" then ""
  else String.mk (((pyLower username).toList).filter (fun c => ¬ c ∈ strippedChars))

/-! ### String distance primitives

`Levenshtein.distance` is the classic unit-cost edit distance, and
`rapidfuzz.fuzz.ratio` is the InDel-based ratio
`100 * (1 - indel / (len1 + len2))` where `indel = len1 + len2 - 2 * lcs`.
-/

/-- Unit-cost Levenshtein edit distance, structurally recursive on a fuel
argument so that it evaluates inside the kernel.  Every recursive call
shrinks the combined length by at least one while consuming one unit of
fuel, so with fuel `|a| + |b|` the fuel-exhausted branch is reached only on
two empty lists, where 0 is the distance. -/
def levDistAux : Nat → List Char → List Char → Nat
  | 0, _, _ => 0
  | _ + 1, [], ys => ys.length
  | _ + 1, x :: xs, [] => (x :: xs).length
  | fuel + 1, x :: xs, y :: ys =>
    if x = y then levDistAux fuel xs ys
    else 1 + min (levDistAux fuel xs ys)
      (min (levDistAux fuel (x :: xs) ys) (levDistAux fuel xs (y :: ys)))

/-- Embedding of `Levenshtein.distance`. -/
def levDist (a b : List Char) : Nat := levDistAux (a.length + b.length) a b

/-- Length of a longest common subsequence, fueled like `levDistAux` (on two
empty lists the answer is 0, so exhausted fuel is again exact). -/
def lcsLenAux : Nat → List Char → List Char → Nat
  | 0, _, _ => 0
  | _ + 1, [], _ => 0
  | _ + 1, _ :: _, [] => 0
  | fuel + 1, x :: xs, y :: ys =>
    if x = y then 1 + lcsLenAux fuel xs ys
    else max (lcsLenAux fuel (x :: xs) ys) (lcsLenAux fuel xs (y :: ys))

/-- Length of a longest common subsequence. -/
def lcsLen (a b : List Char) : Nat := lcsLenAux (a.length + b.length) a b

/-- InDel distance used by `rapidfuzz`. -/
def indelDist (a b : List Char) : Nat := a.length + b.length - 2 * lcsLen a b

/-- Embedding of `rapidfuzz.fuzz.ratio` as an exact rational in [0, 100]. -/
def fuzz_ratio (s1 s2 : String) : ℚ :=
  let a := s1.toList
  let b := s2.toList
  if a.length + b.length = 0 then 100
  else 100 * (1 - (indelDist a b : ℚ) / ((a.length : ℚ) + (b.length : ℚ)))

/-! ### Impersonation pattern heuristics (`_check_impersonation_patterns`) -/

/-- Remove every digit (model of the regex substitution that deletes digit
runs, which deletes exactly the digit characters). -/
def stripDigits (s : List Char) : List Char := s.filter (fun c => ¬ c.isDigit)

/-- Leetspeak substitution: replace every 0 by o, then every 1 by il
(model of the two chained `str.replace` calls). -/
def substituteLeet (s : List Char) : List Char :=
  (s.map (fun c => if c = '0' then 'o' else c)).flatMap
    (fun c => if c = '1' then ['i', 'l'] else [c])

/-- Embedding of `_check_impersonation_patterns`: pattern heuristics scored
0-100 (sum of the three pattern bonuses, capped at 100). -/
def check_impersonation_patterns (username1 username2 : String) : ℚ :=
  let norm1 := (normalize_username username1).toList
  let norm2 := (normalize_username username2).toList
  let base1 := stripDigits norm1
  let base2 := stripDigits norm2
  let score1 : ℚ := if base1 ≠ [] ∧ base2 ≠ [] ∧ base1 = base2 then 50 else 0
  let sub1 := substituteLeet norm1
  let sub2 := substituteLeet norm2
  let score2 : ℚ :=
    if sub1 = sub2 ∨ sub1 <:+: sub2 ∨ sub2 <:+: sub1 then 30 else 0
  let lenDiff := max norm1.length norm2.length - min norm1.length norm2.length
  let score3 : ℚ :=
    if norm1 <:+: norm2 ∨ norm2 <:+: norm1 then
      (if lenDiff ≤ 5 then 40 else if lenDiff ≤ 10 then 20 else 0)
    else 0
  min (score1 + score2 + score3) 100

/-! ### Username similarity (`_calculate_username_similarity`)

The in-memory memoization cache of the Python method is keyed by the
unordered pair of lowercased inputs and only ever stores the value the pure
computation below produces for that pair, so the cache is value-transparent
and the embedding is the pure function.
-/

/-- Embedding of `_calculate_username_similarity`: weighted combination of
Levenshtein similarity (0.5), `fuzz.ratio` (0.3) and the pattern heuristics
(0.2), rounded to two decimals. -/
def calculate_username_similarity (username1 username2 : String) : ℚ :=
  let norm1 := normalize_username username1
  let norm2 := normalize_username username2
  if norm1 = "" ∨ norm2 = "" then 0
  else if norm1 = norm2 then 100
  else
    let maxLen : ℚ := (max norm1.length norm2.length : ℕ)
    let levSimilarity : ℚ := (1 - (levDist norm1.toList norm2.toList : ℚ) / maxLen) * 100
    let jaroSimilarity : ℚ := fuzz_ratio norm1 norm2
    let patternScore : ℚ := check_impersonation_patterns username1 username2
    pyRound2 (levSimilarity * (5/10) + jaroSimilarity * (3/10) + patternScore * (2/10))

/-! ### Composite risk scorer (`_calculate_score`) -/

/-- Result dictionary of `_calculate_score`. -/
structure ScoreDict where
  total_score : ℤ
  username_similarity_score : ℤ
  account_age_score : ℤ
  bio_match_score : ℤ
  streamer_popularity_score : ℤ
  discord_absence_score : ℤ
  avatar_match_score : ℤ
  risk_level : String
deriving DecidableEq, Repr

/-- Embedding of `_calculate_score`: bucket each signal, sum the buckets and
derive the risk tier. -/
def calculate_score (username_similarity : ℚ) (account_age_days : ℤ)
    (bio_similarity : ℚ) (follower_count : ℤ) (has_discord_link : Bool)
    (avatar_similarity : ℚ := 0) : ScoreDict :=
  let username_score : ℤ :=
    if username_similarity ≥ 95 then 40
    else if username_similarity ≥ 85 then 30
    else if username_similarity ≥ 75 then 20
    else if username_similarity ≥ 65 then 10
    else 0
  let age_score : ℤ :=
    if account_age_days ≤ 7 then 20
    else if account_age_days ≤ 30 then 15
    else if account_age_days ≤ 90 then 10
    else if account_age_days ≤ 180 then 5
    else if account_age_days ≤ 365 then 2
    else 0
  let bio_score : ℤ :=
    if bio_similarity ≥ 100 then 20
    else if bio_similarity ≥ 90 then 15
    else if bio_similarity ≥ 70 then 10
    else if bio_similarity ≥ 50 then 5
    else 0
  let popularity_score : ℤ :=
    if 1000 ≤ follower_count ∧ follower_count ≤ 50000 then 10
    else if (500 ≤ follower_count ∧ follower_count < 1000) ∨
        (50000 < follower_count ∧ follower_count ≤ 100000) then 5
    else if (100 ≤ follower_count ∧ follower_count < 500) ∨
        (100000 < follower_count ∧ follower_count ≤ 500000) then 2
    else 0
  let discord_score : ℤ := if has_discord_link then 0 else 10
  let avatar_score : ℤ :=
    if avatar_similarity ≥ 90 then 10
    else if avatar_similarity ≥ 80 then 5
    else 0
  let total_score :=
    username_score + age_score + bio_score + popularity_score + discord_score + avatar_score
  let risk_level : String :=
    if total_score ≥ 80 then "critical"
    else if total_score ≥ 60 then "high"
    else if total_score ≥ 40 then "medium"
    else "low"
  { total_score := total_score
    username_similarity_score := username_score
    account_age_score := age_score
    bio_match_score := bio_score
    streamer_popularity_score := popularity_score
    discord_absence_score := discord_score
    avatar_match_score := avatar_score
    risk_level := risk_level }

/-! ### Account age (`_calculate_account_age_days`)

A Python `datetime` is modelled by the wall-clock instant it displays
(seconds since the epoch) together with its UTC offset, `none` for naive
values.  The reference time is always an aware UTC instant (the
`datetime.now(timezone.utc)` default, or the aware value the callers pass),
so it is modelled directly by its UTC epoch seconds.
-/

/-- Model of a Python `datetime` value. -/
structure PyDatetime where
  wallclockSeconds : ℤ
  utcOffsetSeconds : Option ℤ
deriving DecidableEq, Repr

/-- The absolute UTC instant a `PyDatetime` denotes (naive values read as
UTC, which is what `replace(tzinfo=timezone.utc)` produces). -/
def PyDatetime.utcSeconds (d : PyDatetime) : ℤ :=
  d.wallclockSeconds - (d.utcOffsetSeconds.getD 0)

/-- Embedding of the naive-value normalization step of
`_calculate_account_age_days`. -/
def normalize_created (d : PyDatetime) : PyDatetime :=
  match d.utcOffsetSeconds with
  | none => { d with utcOffsetSeconds := some 0 }
  | some _ => d

/-- Embedding of `_calculate_account_age_days`: `timedelta.days` floors the
difference toward minus infinity, then the result is clamped at 0. -/
def calculate_account_age_days (created_at : PyDatetime) (reference_utc : ℤ) : ℤ :=
  let normalized := normalize_created created_at
  let deltaSeconds := reference_utc - normalized.utcSeconds
  max (deltaSeconds.fdiv 86400) 0

/-! ### Avatar perceptual hashing (`_compute_dhash`, `_calculate_avatar_similarity`) -/

/-- Fueled bit count: one unit of fuel per halving, so fuel `n` suffices for
input `n` (model of Python `int.bit_count`). -/
def popCountAux : Nat → Nat → Nat
  | 0, _ => 0
  | fuel + 1, n => if n = 0 then 0 else n % 2 + popCountAux fuel (n / 2)

/-- Number of set bits of a natural number. -/
def popCount (n : Nat) : Nat := popCountAux n n

/-- Embedding of the bit-building loop of `_compute_dhash`.  The decode and
resize steps of the source produce the row-major 9x8 grayscale pixel list this
function consumes; `(hash << 1) | bit` with a fresh low bit is `2 * hash + bit`. -/
def compute_dhash (pixels : List Nat) : Nat :=
  (List.range 8).foldl (fun hashValue row =>
    (List.range 8).foldl (fun h col =>
      let left := pixels.getD (row * 9 + col) 0
      let right := pixels.getD (row * 9 + col + 1) 0
      2 * h + (if right < left then 1 else 0)) hashValue) 0

/-- Embedding of `_calculate_avatar_similarity`: similarity from the Hamming
distance of the two 64-bit hashes. -/
def calculate_avatar_similarity (hash_a hash_b : Nat) : ℚ :=
  let distance : Nat := popCount (hash_a ^^^ hash_b)
  let similarity : ℚ := (1 - (distance : ℚ) / 64) * 100
  max 0 (pyRound2 similarity)

/-! ### Avatar image fetch (`_fetch_image_bytes`) -/

/-- The parts of an `httpx` response the fetch inspects. -/
structure HttpResponse where
  status_code : ℤ
  contentLengthHeader : Option String
  contentTypeHeader : Option String
  content : List Nat
deriving DecidableEq, Repr

/-- Model of Python `int(s)` on a header string: optional sign and digits,
surrounding whitespace tolerated; `none` models `ValueError`. -/
def pyParseInt (s : String) : Option ℤ := s.trim.toInt?

/-- The declared-size guard of `_fetch_image_bytes`: true when a non-empty
content-length header parses and exceeds the ceiling (an unparseable header
is ignored, as the `ValueError` branch passes). -/
def declared_length_exceeds (response : HttpResponse) (max_bytes : ℕ) : Bool :=
  match response.contentLengthHeader with
  | none => false
  | some cl =>
    if cl = "" then false
    else
      match pyParseInt cl with
      | some n => n > (max_bytes : ℤ)
      | none => false

/-- Embedding of `_fetch_image_bytes`.  `netResult = none` models any
exception raised by the HTTP request (the catch-all handler); otherwise the
guards run in source order. -/
def fetch_image_bytes (netResult : Option HttpResponse) (max_bytes : ℕ := 2000000) :
    Option (List Nat) :=
  match netResult with
  | none => none
  | some response =>
    if response.status_code ≠ 200 then none
    else if declared_length_exceeds response max_bytes then none
    else if response.content.length > max_bytes then none
    else if ¬ ("image/".toList <+: (response.contentTypeHeader.getD "").toList)
      then none
    else some response.content

/-! ### Rate limiter (`TwitchAPIRateLimiter.get_current_usage`) -/

/-- State of the sliding-window rate limiter: the configured ceiling and the
time-ordered queue of recorded request timestamps (seconds). -/
structure RateLimiterState where
  requests_per_minute : ℕ
  request_times : List ℚ
deriving DecidableEq, Repr

/-- Embedding of `get_current_usage`: count the recorded timestamps within
the last 60 seconds via the generator-sum of the source, return the pair with
the ceiling, and pass the state through unchanged (the method only reads). -/
def get_current_usage (st : RateLimiterState) (now : ℚ) :
    (ℕ × ℕ) × RateLimiterState :=
  let count := ((st.request_times.filter (fun t => now - t < 60)).map (fun _ => (1 : ℕ))).sum
  ((count, st.requests_per_minute), st)

/-! ### Streamer cache rows and candidate lookup
(`StreamerCacheRepository.get_candidates_for_username`) -/

/-- The columns of a `streamer_cache` row that the detection flow reads.
`last_updated` is modelled in epoch seconds. -/
structure StreamerCache where
  twitch_user_id : String
  twitch_username : String
  twitch_display_name : Option String
  follower_count : ℤ
  description : Option String
  has_discord_link : Bool
  profile_image_hash : Option ℕ
  last_updated : ℤ
deriving DecidableEq, Repr

/-- Embedding of `get_candidates_for_username` over a database modelled as a
row list: the regex of the query keeps exactly the rows whose username length
lies between `max 3 (len - 3)` and `len + 3`, the `order_by` sorts by
`last_updated` descending, and the query keeps at most `limit` rows. -/
def get_candidates_for_username (db : List StreamerCache) (username : String)
    (limit : ℕ := 50) : List StreamerCache :=
  let username_len := username.length
  let min_len := max 3 (username_len - 3)
  let max_len := username_len + 3
  ((db.filter (fun s =>
      decide (min_len ≤ s.twitch_username.length ∧ s.twitch_username.length ≤ max_len))).mergeSort
    (fun a b => decide (b.last_updated ≤ a.last_updated))).take limit

/-! ### The detection orchestrator (`check_user`)

`check_user` is an async orchestrator; its external effects are embedded as
an environment that fixes the outcome of every awaited call (`Except` for
the calls whose failures the surrounding `try` can observe), plus an explicit
database-session state for the detection writes.  The top-level
`try ... except Exception` of the source becomes the total wrapper
`check_user` over the fallible body `check_user_inner`.
-/

/-- Service-level thresholds set in `__init__`. -/
def min_similarity_threshold : ℚ := 65

/-- Secondary threshold gating avatar comparison. -/
def avatar_similarity_threshold : ℚ := 85

/-- The fields of a `discord.Member` the check reads.  The avatar URL only
feeds `_get_avatar_hash`, whose outcome the environment supplies, so the URL
itself is not modelled.  `has_custom_avatar` is `_is_custom_avatar`. -/
structure Member where
  id : ℤ
  name : String
  display_name : String
  role_ids : List ℤ
  bio : Option String
  created_at : PyDatetime
  has_custom_avatar : Bool
deriving DecidableEq, Repr

/-- The guild-configuration field the check reads. -/
structure GuildConfig where
  impersonation_trusted_role_ids : Option String
deriving DecidableEq, Repr

/-- Row written by `ImpersonationDetectionRepository.create`. -/
structure DetectionRecord where
  guild_id : ℤ
  discord_user_id : ℤ
  discord_username : String
  discord_display_name : String
  discord_account_age_days : ℤ
  discord_bio : Option String
  suspected_streamer_id : String
  suspected_streamer_username : String
  suspected_streamer_follower_count : ℤ
  total_score : ℤ
  username_similarity_score : ℤ
  account_age_score : ℤ
  bio_match_score : ℤ
  streamer_popularity_score : ℤ
  discord_absence_score : ℤ
  avatar_match_score : ℤ
  risk_level : String
  detection_trigger : String
deriving DecidableEq, Repr

/-- Detection-side state of the SQLAlchemy session: writes issued but not yet
committed, and committed writes. -/
structure DbSession where
  pending : List DetectionRecord
  committed : List DetectionRecord
deriving DecidableEq, Repr

/-- The `best_match` dictionary of the candidate loop. -/
structure BestMatch where
  streamer : StreamerCache
  similarity : ℚ
  bio_similarity : ℚ
  scores : ScoreDict
deriving DecidableEq, Repr

/-- The dictionary `check_user` returns on a detection. -/
structure CheckResult where
  detection : DetectionRecord
  streamer : StreamerCache
  similarity : ℚ
  bio_similarity : ℚ
  scores : ScoreDict
deriving DecidableEq, Repr

/-- Environment fixing the outcome of every external call of one check.
`auto_populate_added` is `Except` even though `_auto_populate_cache` has its
own catch-all, so the theorems cover a superset of its behaviours;
`avatar_hash` is a plain `Option` because `_get_avatar_hash` cannot raise
(both helpers it uses fail closed). -/
structure CheckEnv where
  now_utc : ℤ
  whitelisted : Except String Bool
  first_search : Except String (List StreamerCache)
  auto_populate_added : Except String ℕ
  second_search : Except String (List StreamerCache)
  avatar_hash : Option ℕ
  create_ok : Except String Unit
  commit_ok : Except String Unit
deriving Repr

/-- Observable outcome of one `check_user` call: the returned value, the
final session state, and ghost instrumentation (number of
`_auto_populate_cache` calls, number of persistence `create` calls, whether
`rollback` ran, and the final `best_score` of the run). -/
structure CheckOutcome where
  result : Option CheckResult
  session : DbSession
  auto_populate_runs : ℕ
  create_calls : ℕ
  rolled_back : Bool
  best_score : ℤ
deriving DecidableEq, Repr

/-- State carried by an escaping exception: session at raise time plus the
ghost counters. -/
structure ErrInfo where
  session : DbSession
  auto_populate_runs : ℕ
  create_calls : ℕ
  best_score : ℤ
deriving DecidableEq, Repr

/-- Embedding of the trusted-role-id parse
`[int(rid) for rid in raw.split(",") if rid.strip()]`; a malformed id raises. -/
def parse_int_list : List String → Except String (List ℤ)
  | [] => .ok []
  | rid :: rest =>
    if rid.trim = "" then parse_int_list rest
    else
      match pyParseInt rid with
      | none => .error "invalid literal for int"
      | some n =>
        match parse_int_list rest with
        | .ok ns => .ok (n :: ns)
        | .error e => .error e

/-- The trusted-role bypass of `check_user`: true when the config names a
trusted role the member holds. -/
def trusted_role_check (guild_config : GuildConfig) (member : Member) :
    Except String Bool :=
  match guild_config.impersonation_trusted_role_ids with
  | none => .ok false
  | some raw =>
    if raw = "" then .ok false
    else
      match parse_int_list (raw.splitOn ",") with
      | .error e => .error e
      | .ok ids => .ok (member.role_ids.any (fun r => ids.contains r))

/-- The bio truthiness filter of `check_user`
(`if hasattr(member, "bio") and member.bio`). -/
def effective_bio (member : Member) : Option String :=
  match member.bio with
  | some b => if b = "" then none else some b
  | none => none

/-- Bio similarity of one candidate
(`if discord_bio and cached_streamer.description`). -/
def compute_bio_similarity (discord_bio : Option String)
    (description : Option String) : ℚ :=
  match discord_bio, description with
  | some b, some d =>
    if b = "" ∨ d = "" then 0 else fuzz_ratio (pyLower b) (pyLower d)
  | _, _ => 0

/-- One iteration of the candidate loop of `check_user`: similarity gate,
bio similarity, scoring, best-match update. -/
def scan_step (member_name : String) (discord_bio : Option String)
    (account_age_days : ℤ) (acc : Option BestMatch × ℤ)
    (cached : StreamerCache) : Option BestMatch × ℤ :=
  let similarity := calculate_username_similarity member_name cached.twitch_username
  if similarity < min_similarity_threshold then acc
  else
    let bio_similarity := compute_bio_similarity discord_bio cached.description
    let candidate_scores := calculate_score similarity account_age_days
      bio_similarity cached.follower_count cached.has_discord_link
    if acc.2 < candidate_scores.total_score then
      (some ⟨cached, similarity, bio_similarity, candidate_scores⟩,
        candidate_scores.total_score)
    else acc

/-- One pass of the candidate loop of `check_user`, starting from the current
`(best_match, best_score)` accumulator. -/
def scan_candidates (member_name : String) (discord_bio : Option String)
    (account_age_days : ℤ) (candidates : List StreamerCache)
    (init : Option BestMatch × ℤ) : Option BestMatch × ℤ :=
  candidates.foldl (scan_step member_name discord_bio account_age_days) init

/-- The detection record built from the matched streamer and scores. -/
def build_detection_record (member : Member) (guild_id : ℤ) (trigger : String)
    (account_age_days : ℤ) (discord_bio : Option String)
    (matched : StreamerCache) (scores : ScoreDict) : DetectionRecord :=
  { guild_id := guild_id
    discord_user_id := member.id
    discord_username := member.name
    discord_display_name := member.display_name
    discord_account_age_days := account_age_days
    discord_bio := discord_bio
    suspected_streamer_id := matched.twitch_user_id
    suspected_streamer_username := matched.twitch_username
    suspected_streamer_follower_count := matched.follower_count
    total_score := scores.total_score
    username_similarity_score := scores.username_similarity_score
    account_age_score := scores.account_age_score
    bio_match_score := scores.bio_match_score
    streamer_popularity_score := scores.streamer_popularity_score
    discord_absence_score := scores.discord_absence_score
    avatar_match_score := scores.avatar_match_score
    risk_level := scores.risk_level
    detection_trigger := trigger }

/-- The optional avatar comparison of `check_user`: only for a strong
username match, a cached streamer hash, and a custom member avatar; a failed
hash fetch leaves the similarity at 0. -/
def phase2_avatar_similarity (env : CheckEnv) (member : Member)
    (bestMatch : BestMatch) : ℚ :=
  if bestMatch.similarity ≥ avatar_similarity_threshold ∧
      bestMatch.streamer.profile_image_hash.isSome ∧ member.has_custom_avatar then
    match env.avatar_hash, bestMatch.streamer.profile_image_hash with
    | some discord_hash, some streamer_hash =>
      calculate_avatar_similarity discord_hash streamer_hash
    | _, _ => 0
  else 0

/-- The `(matched_scores, best_score)` pair after the optional avatar
rescoring of `check_user` (`if avatar_similarity > 0`). -/
def phase2_scores (env : CheckEnv) (member : Member) (account_age_days : ℤ)
    (bestMatch : BestMatch) (bestScore : ℤ) : ScoreDict × ℤ :=
  let avatar_similarity := phase2_avatar_similarity env member bestMatch
  if avatar_similarity > 0 then
    let newScores := calculate_score bestMatch.similarity account_age_days
      bestMatch.bio_similarity bestMatch.streamer.follower_count
      bestMatch.streamer.has_discord_link avatar_similarity
    (newScores, newScores.total_score)
  else (bestMatch.scores, bestScore)

/-- Phase two of `check_user` after the candidate scans: optional avatar
comparison, the 40-point report gate, and persistence. -/
def check_phase2 (env : CheckEnv) (member : Member) (guild_id : ℤ)
    (trigger : String) (account_age_days : ℤ) (discord_bio : Option String)
    (s0 : DbSession) (apRuns : ℕ) (best : Option BestMatch) (bestScore : ℤ) :
    Except ErrInfo CheckOutcome :=
  match best with
  | none =>
    .ok { result := none, session := s0, auto_populate_runs := apRuns
          create_calls := 0, rolled_back := false, best_score := bestScore }
  | some bestMatch =>
    let ws := phase2_scores env member account_age_days bestMatch bestScore
    let matchedScores := ws.1
    let bestScore2 := ws.2
    if bestScore2 < 40 then
      .ok { result := none, session := s0, auto_populate_runs := apRuns
            create_calls := 0, rolled_back := false, best_score := bestScore2 }
    else
      let record := build_detection_record member guild_id trigger
        account_age_days discord_bio bestMatch.streamer matchedScores
      match env.create_ok with
      | .error _ => .error ⟨s0, apRuns, 1, bestScore2⟩
      | .ok _ =>
        let s1 : DbSession := { s0 with pending := s0.pending ++ [record] }
        match env.commit_ok with
        | .error _ => .error ⟨s1, apRuns, 1, bestScore2⟩
        | .ok _ =>
          let s2 : DbSession :=
            { pending := [], committed := s1.committed ++ s1.pending }
          .ok { result := some ⟨record, bestMatch.streamer, bestMatch.similarity,
                  bestMatch.bio_similarity, matchedScores⟩
                session := s2, auto_populate_runs := apRuns, create_calls := 1
                rolled_back := false, best_score := bestScore2 }

/-- Body of `check_user` inside its `try`: whitelist and trusted-role
bypasses, candidate scan, conditional auto-populate with rescan, then
`check_phase2`. -/
def check_user_inner (env : CheckEnv) (member : Member) (guild_id : ℤ)
    (guild_config : GuildConfig) (trigger : String) (s0 : DbSession) :
    Except ErrInfo CheckOutcome :=
  match env.whitelisted with
  | .error _ => .error ⟨s0, 0, 0, 0⟩
  | .ok true =>
    .ok { result := none, session := s0, auto_populate_runs := 0
          create_calls := 0, rolled_back := false, best_score := 0 }
  | .ok false =>
    match trusted_role_check guild_config member with
    | .error _ => .error ⟨s0, 0, 0, 0⟩
    | .ok true =>
      .ok { result := none, session := s0, auto_populate_runs := 0
            create_calls := 0, rolled_back := false, best_score := 0 }
    | .ok false =>
      let account_age_days := calculate_account_age_days member.created_at env.now_utc
      let discord_bio := effective_bio member
      match env.first_search with
      | .error _ => .error ⟨s0, 0, 0, 0⟩
      | .ok cached1 =>
        let first := scan_candidates member.name discord_bio account_age_days
          cached1 (none, 0)
        if (first.2 : ℚ) < min_similarity_threshold ∨ first.1 = none then
          match env.auto_populate_added with
          | .error _ => .error ⟨s0, 1, 0, 0⟩
          | .ok added =>
            if added > 0 then
              match env.second_search with
              | .error _ => .error ⟨s0, 1, 0, 0⟩
              | .ok cached2 =>
                let second := scan_candidates member.name discord_bio
                  account_age_days cached2 first
                check_phase2 env member guild_id trigger account_age_days
                  discord_bio s0 1 second.1 second.2
            else
              check_phase2 env member guild_id trigger account_age_days
                discord_bio s0 1 first.1 first.2
        else
          check_phase2 env member guild_id trigger account_age_days
            discord_bio s0 0 first.1 first.2

/-- Embedding of `check_user`: the catch-all handler turns any escaping
exception into a rollback (pending writes discarded) and a `None` result. -/
def check_user (env : CheckEnv) (member : Member) (guild_id : ℤ)
    (guild_config : GuildConfig) (trigger : String) (s0 : DbSession) :
    CheckOutcome :=
  match check_user_inner env member guild_id guild_config trigger s0 with
  | .ok out => out
  | .error e =>
    { result := none
      session := { pending := [], committed := e.session.committed }
      auto_populate_runs := e.auto_populate_runs
      create_calls := e.create_calls
      rolled_back := true
      best_score := e.best_score }

/-! ## Claims -/

/-! ### C2: self-similarity of the username scorer -/

/-- Counterexample to C2: the underscore string is non-empty, yet the
similarity of the string with itself is 0, not 100, because normalization
strips it to the empty string and the empty-after-normalize guard runs
before the equality shortcut. -/
theorem C2_counterexample :
    ("_" : String) ≠ "" ∧ calculate_username_similarity "_" "_" = 0 ∧
      calculate_username_similarity "_" "_" ≠ 100 := by decide

/-- Claim C2 (amended): for every string x whose normalization is non-empty,
the username similarity of x with itself is exactly 100; strings consisting
only of stripped characters normalize to empty and score 0 instead. -/
theorem C2_self_similarity (x : String) (h : normalize_username x ≠ "") :
    calculate_username_similarity x x = 100 := by
  simp only [calculate_username_similarity]
  rw [if_neg (by simpa [or_self] using h), if_pos trivial]

/-- Witness for C2: the theorem applied at the concrete handle alice. -/
theorem C2_self_similarity_witness :
    normalize_username "alice" ≠ "" ∧
      calculate_username_similarity "alice" "alice" = 100 :=
  ⟨by decide, C2_self_similarity "alice" (by decide)⟩

/-! ### C3: per-signal monotonicity of the composite scorer -/

/-- Counterexample to C3: increasing the follower count from 50000 to 50001
strictly decreases the popularity bucket (from 10 to 5), so the popularity
bucket of `_calculate_score` is not monotone in the follower count. -/
theorem C3_counterexample :
    (50000 : ℤ) ≤ 50001 ∧
      (calculate_score 0 1000 0 50001 true 0).streamer_popularity_score <
        (calculate_score 0 1000 0 50000 true 0).streamer_popularity_score := by
  decide

/-- Claim C3 (amended): the buckets of `_calculate_score` are monotone in
username similarity, account youth (fewer days never score lower), bio
similarity and avatar similarity; the popularity bucket is not monotone in
the follower count but unimodal: nondecreasing up to the 1000-50000 sweet
spot and nonincreasing from it on. -/
theorem C3_score_monotonicity :
    (∀ (u u' : ℚ) (a : ℤ) (b : ℚ) (f : ℤ) (l : Bool) (v : ℚ), u ≤ u' →
      (calculate_score u a b f l v).username_similarity_score ≤
        (calculate_score u' a b f l v).username_similarity_score) ∧
    (∀ (u : ℚ) (a a' : ℤ) (b : ℚ) (f : ℤ) (l : Bool) (v : ℚ), a ≤ a' →
      (calculate_score u a' b f l v).account_age_score ≤
        (calculate_score u a b f l v).account_age_score) ∧
    (∀ (u : ℚ) (a : ℤ) (b b' : ℚ) (f : ℤ) (l : Bool) (v : ℚ), b ≤ b' →
      (calculate_score u a b f l v).bio_match_score ≤
        (calculate_score u a b' f l v).bio_match_score) ∧
    (∀ (u : ℚ) (a : ℤ) (b : ℚ) (f : ℤ) (l : Bool) (v v' : ℚ), v ≤ v' →
      (calculate_score u a b f l v).avatar_match_score ≤
        (calculate_score u a b f l v').avatar_match_score) ∧
    (∀ (u : ℚ) (a : ℤ) (b : ℚ) (f f' : ℤ) (l : Bool) (v : ℚ),
      f ≤ f' → f' ≤ 50000 →
      (calculate_score u a b f l v).streamer_popularity_score ≤
        (calculate_score u a b f' l v).streamer_popularity_score) ∧
    (∀ (u : ℚ) (a : ℤ) (b : ℚ) (f f' : ℤ) (l : Bool) (v : ℚ),
      1000 ≤ f → f ≤ f' →
      (calculate_score u a b f' l v).streamer_popularity_score ≤
        (calculate_score u a b f l v).streamer_popularity_score) := by
  refine ⟨?_, ?_, ?_, ?_, ?_, ?_⟩ <;>
    · intros
      simp only [calculate_score]
      split_ifs <;> first | omega | linarith

/-- Witness for C3: each conjunct applied at concrete inputs. -/
theorem C3_score_monotonicity_witness :
    ((calculate_score 70 5 0 0 false 0).username_similarity_score ≤
      (calculate_score 96 5 0 0 false 0).username_similarity_score) ∧
    ((calculate_score 70 400 0 0 false 0).account_age_score ≤
      (calculate_score 70 3 0 0 false 0).account_age_score) ∧
    ((calculate_score 70 5 40 0 false 0).bio_match_score ≤
      (calculate_score 70 5 95 0 false 0).bio_match_score) ∧
    ((calculate_score 70 5 0 0 false 10).avatar_match_score ≤
      (calculate_score 70 5 0 0 false 95).avatar_match_score) ∧
    ((calculate_score 70 5 0 400 false 0).streamer_popularity_score ≤
      (calculate_score 70 5 0 2000 false 0).streamer_popularity_score) ∧
    ((calculate_score 70 5 0 60000 false 0).streamer_popularity_score ≤
      (calculate_score 70 5 0 2000 false 0).streamer_popularity_score) :=
  ⟨C3_score_monotonicity.1 70 96 5 0 0 false 0 (by norm_num),
    C3_score_monotonicity.2.1 70 3 400 0 0 false 0 (by norm_num),
    C3_score_monotonicity.2.2.1 70 5 40 95 0 false 0 (by norm_num),
    C3_score_monotonicity.2.2.2.1 70 5 0 0 false 10 95 (by norm_num),
    C3_score_monotonicity.2.2.2.2.1 70 5 0 400 2000 false 0 (by norm_num)
      (by norm_num),
    C3_score_monotonicity.2.2.2.2.2 70 5 0 2000 60000 false 0 (by norm_num)
      (by norm_num)⟩

/-! ### C9: the account-age computation is total and never negative -/

/-- Claim C9: for every creation timestamp (aware or naive, past or future)
and reference instant, `_calculate_account_age_days` returns an integer that
is at least 0; a naive timestamp is read as UTC, and a creation instant in
the future yields age 0. -/
theorem C9_account_age_total_nonneg :
    ∀ (created : PyDatetime) (reference_utc : ℤ),
      0 ≤ calculate_account_age_days created reference_utc ∧
      (created.utcOffsetSeconds = none →
        calculate_account_age_days created reference_utc =
          calculate_account_age_days ⟨created.wallclockSeconds, some 0⟩ reference_utc) ∧
      (reference_utc < (normalize_created created).utcSeconds →
        calculate_account_age_days created reference_utc = 0) := by
  intro created reference_utc
  refine ⟨le_max_right _ _, ?_, ?_⟩
  · intro hnone
    simp only [calculate_account_age_days, normalize_created, hnone]
  · intro hfut
    have hneg : reference_utc - (normalize_created created).utcSeconds < 0 := by omega
    have hdiv : (reference_utc - (normalize_created created).utcSeconds).fdiv 86400 < 0 := by
      exact Int.fdiv_neg' hneg (by norm_num)
    simp only [calculate_account_age_days]
    omega

/-- Witness for C9: the theorem applied to a naive, future-dated timestamp. -/
theorem C9_account_age_witness :
    0 ≤ calculate_account_age_days ⟨500000, none⟩ 100 ∧
      (calculate_account_age_days ⟨500000, none⟩ 100 =
        calculate_account_age_days ⟨500000, some 0⟩ 100) ∧
      calculate_account_age_days ⟨500000, none⟩ 100 = 0 := by
  have h := C9_account_age_total_nonneg ⟨500000, none⟩ 100
  exact ⟨h.1, h.2.1 rfl, h.2.2 (by decide)⟩

/-! ### C10: dhash range and avatar similarity bounds -/

theorem popCountAux_le (fuel : ℕ) :
    ∀ (n k : ℕ), n < 2 ^ k → popCountAux fuel n ≤ k := by
  induction fuel with
  | zero => intro n k _; simp [popCountAux]
  | succ fuel ih =>
    intro n k hn
    simp only [popCountAux]
    split_ifs with h0
    · omega
    · cases k with
      | zero =>
        simp only [pow_zero] at hn
        omega
      | succ k =>
        have hdiv : n / 2 < 2 ^ k := by
          have h2 : n < 2 ^ k * 2 := by
            calc n < 2 ^ (k + 1) := hn
              _ = 2 ^ k * 2 := pow_succ 2 k
          omega
        have := ih (n / 2) k hdiv
        omega

theorem popCount_le {n k : ℕ} (h : n < 2 ^ k) : popCount n ≤ k :=
  popCountAux_le n n k h

theorem foldl_double_bound {β : Type} (K : ℕ) (step : ℕ → β → ℕ)
    (hstep : ∀ (h : ℕ) (b : β) (c : ℕ), h < c → step h b < c * K) :
    ∀ (l : List β) (h c : ℕ), h < c → l.foldl step h < c * K ^ l.length := by
  intro l
  induction l with
  | nil => intro h c hc; simpa using hc
  | cons b t ih =>
    intro h c hc
    have h1 : step h b < c * K := hstep h b c hc
    have h2 := ih (step h b) (c * K) h1
    calc (b :: t).foldl step h = t.foldl step (step h b) := rfl
      _ < c * K * K ^ t.length := h2
      _ = c * K ^ (b :: t).length := by
        rw [List.length_cons, pow_succ]
        ring

theorem roundHalfEven_intCast (m : ℤ) : roundHalfEven (m : ℚ) = m := by
  unfold roundHalfEven
  dsimp only
  rw [rat_floor_eq_floor, Int.floor_intCast]
  rw [if_pos (by norm_num)]

theorem pyRound2_intCast (n : ℤ) : pyRound2 (n : ℚ) = (n : ℚ) := by
  unfold pyRound2
  have : (n : ℚ) * 100 = ((n * 100 : ℤ) : ℚ) := by push_cast; ring
  rw [this, roundHalfEven_intCast]
  push_cast
  ring

/-- Claim C10: every hash `_compute_dhash` builds lies below 2^64, and for
hashes in that range `_calculate_avatar_similarity` lands in [0, 100], with
similarity 100 for a hash compared with itself. -/
theorem C10_dhash_and_similarity_bounds :
    (∀ pixels : List Nat, compute_dhash pixels < 2 ^ 64) ∧
    (∀ a b : ℕ, a < 2 ^ 64 → b < 2 ^ 64 →
      0 ≤ calculate_avatar_similarity a b ∧ calculate_avatar_similarity a b ≤ 100) ∧
    (∀ a : ℕ, calculate_avatar_similarity a a = 100) := by
  refine ⟨?_, ?_, ?_⟩
  · intro pixels
    have hinner : ∀ (row : ℕ) (h c : ℕ), h < c →
        (List.range 8).foldl (fun h2 col =>
          2 * h2 + (if pixels.getD (row * 9 + col + 1) 0 < pixels.getD (row * 9 + col) 0
            then 1 else 0)) h < c * 256 := by
      intro row h c hc
      have := foldl_double_bound 2
        (fun h2 col =>
          2 * h2 + (if pixels.getD (row * 9 + col + 1) 0 < pixels.getD (row * 9 + col) 0
            then 1 else 0))
        (fun h2 b c2 hlt => by
          dsimp only
          have : (if pixels.getD (row * 9 + b + 1) 0 < pixels.getD (row * 9 + b) 0
              then 1 else 0) ≤ 1 := by split_ifs <;> omega
          omega)
        (List.range 8) h c hc
      simpa using this
    have houter := foldl_double_bound 256
      (fun hashValue row =>
        (List.range 8).foldl (fun h2 col =>
          2 * h2 + (if pixels.getD (row * 9 + col + 1) 0 < pixels.getD (row * 9 + col) 0
            then 1 else 0)) hashValue)
      (fun h b c hc => hinner b h c hc)
      (List.range 8) 0 1 (by norm_num)
    have : compute_dhash pixels < 1 * 256 ^ 8 := by
      simpa [compute_dhash] using houter
    calc compute_dhash pixels < 1 * 256 ^ 8 := this
      _ = 2 ^ 64 := by norm_num
  · intro a b ha hb
    have hxor : a ^^^ b < 2 ^ 64 := Nat.xor_lt_two_pow ha hb
    have hpc : popCount (a ^^^ b) ≤ 64 := popCount_le hxor
    constructor
    · exact le_max_left 0 _
    · simp only [calculate_avatar_similarity]
      have hsim : (1 - (popCount (a ^^^ b) : ℚ) / 64) * 100 ≤ ((100 : ℤ) : ℚ) := by
        have : (0 : ℚ) ≤ (popCount (a ^^^ b) : ℚ) / 64 := by positivity
        push_cast
        linarith
      have := pyRound2_le_of_le hsim
      apply max_le
      · push_cast at this ⊢
        norm_num
      · push_cast at this ⊢
        linarith
  · intro a
    simp only [calculate_avatar_similarity, Nat.xor_self]
    have hpc0 : popCount 0 = 0 := rfl
    rw [hpc0]
    norm_num
    have : pyRound2 ((100 : ℤ) : ℚ) = ((100 : ℤ) : ℚ) := pyRound2_intCast 100
    push_cast at this
    rw [this]
    norm_num

/-- Witness for C10: the bounds instantiated on the concrete hash pair 5, 6. -/
theorem C10_witness :
    compute_dhash [] < 2 ^ 64 ∧
      (0 ≤ calculate_avatar_similarity 5 6 ∧ calculate_avatar_similarity 5 6 ≤ 100) ∧
      calculate_avatar_similarity 5 5 = 100 :=
  ⟨C10_dhash_and_similarity_bounds.1 [],
    C10_dhash_and_similarity_bounds.2.1 5 6 (by norm_num) (by norm_num),
    C10_dhash_and_similarity_bounds.2.2 5⟩

/-! ### C7: the avatar image fetch fails closed -/

/-- Claim C7: `_fetch_image_bytes` returns the body exactly when the request
succeeded with status 200, the declared size guard passes, the body is within
the ceiling and the content type is an image type; in every other case
(network error included) it returns `none` rather than raising. -/
theorem C7_fetch_image_fail_closed :
    ∀ (netResult : Option HttpResponse) (max_bytes : ℕ) (b : List Nat),
      fetch_image_bytes netResult max_bytes = some b ↔
        ∃ r, netResult = some r ∧ r.status_code = 200 ∧
          declared_length_exceeds r max_bytes = false ∧
          r.content.length ≤ max_bytes ∧
          ("image/".toList <+: (r.contentTypeHeader.getD "").toList) ∧
          b = r.content := by
  intro netResult max_bytes b
  constructor
  · intro h
    match netResult with
    | none => simp [fetch_image_bytes] at h
    | some r =>
      refine ⟨r, rfl, ?_⟩
      simp only [fetch_image_bytes] at h
      split_ifs at h with h1 h2 h3 h4
      exact ⟨by omega, by simpa using h2, by omega, h4,
        (Option.some.inj h).symm⟩
  · rintro ⟨r, rfl, h200, hdecl, hlen, hct, rfl⟩
    simp only [fetch_image_bytes]
    rw [if_neg (by simp [h200]), if_neg (by simp [hdecl]),
      if_neg (by omega), if_neg (by simpa using hct)]

/-- Witness for C7: the equivalence applied to a concrete successful
response and to a network failure. -/
theorem C7_fetch_image_witness :
    fetch_image_bytes (some ⟨200, none, some "image/png", [7, 8, 9]⟩) 2000000 =
      some [7, 8, 9] ∧
    fetch_image_bytes none 2000000 = none :=
  ⟨(C7_fetch_image_fail_closed
      (some ⟨200, none, some "image/png", [7, 8, 9]⟩) 2000000 [7, 8, 9]).mpr
    ⟨⟨200, none, some "image/png", [7, 8, 9]⟩, rfl, rfl, by decide, by decide,
      by decide, rfl⟩, rfl⟩

/-! ### C8: rate limiter usage introspection is read-only -/

theorem sum_map_one {α : Type} (l : List α) :
    (l.map (fun _ => (1 : ℕ))).sum = l.length := by
  induction l with
  | nil => rfl
  | cons x t ih => simp [ih, Nat.add_comm]

/-- Claim C8: `get_current_usage` returns the number of recorded timestamps
within the last 60 seconds paired with the configured ceiling, and leaves the
limiter state (the timestamp queue) unchanged — it records nothing. -/
theorem C8_usage_read_only :
    ∀ (st : RateLimiterState) (now : ℚ),
      (get_current_usage st now).1 =
        ((st.request_times.filter (fun t => now - t < 60)).length,
          st.requests_per_minute) ∧
      (get_current_usage st now).2 = st := by
  intro st now
  refine ⟨?_, rfl⟩
  simp only [get_current_usage]
  rw [sum_map_one]

/-! ### C6: the fallback candidate lookup window -/

unseal List.merge List.mergeSort in
/-- Counterexample to C6: for the two-character query handle the stored
username of length 1 is within three characters of the query length, yet the
lookup returns nothing, because the lower end of the window is clamped at 3:
the regex length range is `max 3 (len - 3)` to `len + 3`, not `len - 3`. -/
theorem C6_counterexample :
    (("x" : String).length ≤ ("ab" : String).length + 3 ∧
      ("ab" : String).length ≤ ("x" : String).length + 3) ∧
    get_candidates_for_username
      [⟨"1", "x", none, 0, none, true, none, 0⟩] "ab" 50 = [] := by decide

/-- The length window of the candidate lookup. -/
def in_length_window (username : String) (s : StreamerCache) : Prop :=
  max 3 (username.length - 3) ≤ s.twitch_username.length ∧
    s.twitch_username.length ≤ username.length + 3

instance (username : String) (s : StreamerCache) :
    Decidable (in_length_window username s) := by
  unfold in_length_window
  infer_instance

/-- Claim C6 (amended): the fallback lookup returns only cached rows whose
stored username length lies in the clamped window from `max 3 (len - 3)` to
`len + 3` of the query length; when the cache fits in the row limit it
returns every such row; and the result is ordered by `last_updated`
descending. -/
theorem C6_candidates_characterization :
    (∀ (db : List StreamerCache) (username : String) (limit : ℕ)
        (s : StreamerCache),
      s ∈ get_candidates_for_username db username limit →
        s ∈ db ∧ in_length_window username s) ∧
    (∀ (db : List StreamerCache) (username : String) (limit : ℕ)
        (s : StreamerCache),
      db.length ≤ limit → s ∈ db → in_length_window username s →
        s ∈ get_candidates_for_username db username limit) ∧
    (∀ (db : List StreamerCache) (username : String) (limit : ℕ),
      (get_candidates_for_username db username limit).Pairwise
        (fun a b => b.last_updated ≤ a.last_updated)) := by
  refine ⟨?_, ?_, ?_⟩
  · intro db username limit s hs
    have hs1 := List.mem_of_mem_take hs
    have hs2 := List.mem_mergeSort.mp hs1
    have hs3 := List.mem_filter.mp hs2
    refine ⟨hs3.1, ?_⟩
    have := of_decide_eq_true hs3.2
    exact this
  · intro db username limit s hlim hmem hwin
    unfold get_candidates_for_username
    have hfl : (db.filter (fun s =>
        decide (max 3 (username.length - 3) ≤ s.twitch_username.length ∧
          s.twitch_username.length ≤ username.length + 3))).length ≤ limit :=
      le_trans (List.length_filter_le _ _) hlim
    have hsl : ((db.filter (fun s =>
        decide (max 3 (username.length - 3) ≤ s.twitch_username.length ∧
          s.twitch_username.length ≤ username.length + 3))).mergeSort
        (fun a b => decide (b.last_updated ≤ a.last_updated))).length ≤ limit := by
      rw [List.length_mergeSort]
      exact hfl
    rw [List.take_of_length_le hsl]
    apply List.mem_mergeSort.mpr
    exact List.mem_filter.mpr ⟨hmem, decide_eq_true hwin⟩
  · intro db username limit
    apply List.Pairwise.sublist (List.take_sublist _ _)
    have hsorted := @List.sorted_mergeSort StreamerCache
      (fun (a b : StreamerCache) => decide (b.last_updated ≤ a.last_updated))
      (fun a b c hab hbc => by
        simp only [decide_eq_true_eq] at hab hbc ⊢
        exact le_trans hbc hab)
      (fun a b => by
        simp only [Bool.or_eq_true, decide_eq_true_eq]
        exact le_total b.last_updated a.last_updated)
      (db.filter (fun s =>
        decide (max 3 (username.length - 3) ≤ s.twitch_username.length ∧
          s.twitch_username.length ≤ username.length + 3)))
    exact hsorted.imp (fun h => of_decide_eq_true h)

/-- Witness for C6: completeness applied on a one-row cache that fits the
window, soundness on its result, and the ordering on a two-row cache. -/
theorem C6_candidates_witness :
    (⟨"1", "alice", none, 0, none, true, none, 5⟩ : StreamerCache) ∈
      get_candidates_for_username
        [⟨"1", "alice", none, 0, none, true, none, 5⟩] "alicey" 50 ∧
    (get_candidates_for_username
        [⟨"1", "alice", none, 0, none, true, none, 5⟩] "alicey" 50).Pairwise
      (fun a b => b.last_updated ≤ a.last_updated) :=
  ⟨C6_candidates_characterization.2.1
      [⟨"1", "alice", none, 0, none, true, none, 5⟩] "alicey" 50
      ⟨"1", "alice", none, 0, none, true, none, 5⟩
      (by decide) (by decide) (by decide),
    C6_candidates_characterization.2.2
      [⟨"1", "alice", none, 0, none, true, none, 5⟩] "alicey" 50⟩

/-! ### Invariants of the candidate scan and of phase two -/

/-- The loop invariant of the candidate scan: the tracked score is the total
score of the tracked best match, and 0 while there is none. -/
def ScanInv (p : Option BestMatch × ℤ) : Prop :=
  (∀ bm, p.1 = some bm → p.2 = bm.scores.total_score) ∧ (p.1 = none → p.2 = 0)

theorem scan_step_inv (name : String) (bio : Option String) (age : ℤ)
    (acc : Option BestMatch × ℤ) (c : StreamerCache) (h : ScanInv acc) :
    ScanInv (scan_step name bio age acc c) := by
  unfold scan_step
  dsimp only
  split_ifs with h1 h2
  · exact h
  · constructor
    · intro bm hbm
      cases hbm
      rfl
    · intro hnone
      cases hnone
  · exact h

theorem scan_candidates_inv (name : String) (bio : Option String) (age : ℤ)
    (cs : List StreamerCache) (init : Option BestMatch × ℤ) (h : ScanInv init) :
    ScanInv (scan_candidates name bio age cs init) := by
  unfold scan_candidates
  induction cs generalizing init with
  | nil => exact h
  | cons c t ih =>
    rw [List.foldl_cons]
    exact ih (scan_step name bio age init c) (scan_step_inv name bio age init c h)

/-- Specification of `check_phase2`: the auto-populate counter passes
through; a returned detection carries a total score of at least 40; a final
best score below 40 produces no result, no create call and an untouched
session; and an escaping exception preserves the committed writes, happens
only at a score of at least 40, and counts one create call. -/
theorem check_phase2_spec (env : CheckEnv) (member : Member) (guild_id : ℤ)
    (trigger : String) (age : ℤ) (bio : Option String) (s0 : DbSession)
    (ap : ℕ) (best : Option BestMatch) (bs : ℤ)
    (hinv : ∀ bm, best = some bm → bs = bm.scores.total_score) :
    (∀ out, check_phase2 env member guild_id trigger age bio s0 ap best bs = .ok out →
      out.auto_populate_runs = ap ∧
      (∀ r, out.result = some r → 40 ≤ r.detection.total_score ∧
        r.detection.total_score = r.scores.total_score ∧ 40 ≤ out.best_score) ∧
      (out.best_score < 40 → out.result = none ∧ out.create_calls = 0 ∧
        out.session = s0)) ∧
    (∀ e, check_phase2 env member guild_id trigger age bio s0 ap best bs = .error e →
      e.auto_populate_runs = ap ∧ e.session.committed = s0.committed ∧
      40 ≤ e.best_score ∧ e.create_calls = 1) := by
  have hsnd : ∀ bm : BestMatch, bs = bm.scores.total_score →
      (phase2_scores env member age bm bs).2 =
        (phase2_scores env member age bm bs).1.total_score := by
    intro bm hbs
    unfold phase2_scores
    dsimp only
    split_ifs with h
    · rfl
    · exact hbs
  unfold check_phase2
  cases best with
  | none =>
    refine ⟨?_, ?_⟩
    · intro out hout
      cases hout
      refine ⟨rfl, ?_, ?_⟩
      · intro r hr
        cases hr
      · intro _
        exact ⟨rfl, rfl, rfl⟩
    · intro e he
      cases he
  | some bm =>
    have hW := hsnd bm (hinv bm rfl)
    dsimp only
    refine ⟨?_, ?_⟩
    · intro out hout
      split at hout
      · cases hout
        refine ⟨rfl, ?_, ?_⟩
        · intro r hr
          cases hr
        · intro _
          exact ⟨rfl, rfl, rfl⟩
      · rename_i hgate
        split at hout
        · cases hout
        · split at hout
          · cases hout
          · cases hout
            refine ⟨rfl, ?_, ?_⟩
            · intro r hr
              cases hr
              refine ⟨?_, ?_, ?_⟩
              · simp only [build_detection_record]
                omega
              · simp only [build_detection_record]
              · dsimp only
                omega
            · intro hlt
              dsimp only at hlt
              omega
    · intro e he
      split at he
      · cases he
      · rename_i hgate
        split at he
        · cases he
          exact ⟨rfl, rfl, by dsimp only; omega, rfl⟩
        · split at he
          · cases he
            exact ⟨rfl, rfl, by dsimp only; omega, rfl⟩
          · cases he

/-- The first-pass scan of a check always satisfies the scan invariant. -/
theorem first_scan_inv (env : CheckEnv) (member : Member)
    (cs1 : List StreamerCache) :
    ScanInv (scan_candidates member.name (effective_bio member)
      (calculate_account_age_days member.created_at env.now_utc) cs1 (none, 0)) := by
  apply scan_candidates_inv
  constructor
  · intro bm h
    cases h
  · intro _
    rfl

/-- Specification of `check_user_inner`: auto-populate runs at most once; a
returned detection scores at least 40; a best score below 40 leaves the
session untouched with no create call and no result; an escaping exception
preserves committed writes and, below 40, has issued no create call. -/
theorem check_user_inner_spec (env : CheckEnv) (member : Member) (guild_id : ℤ)
    (cfg : GuildConfig) (trigger : String) (s0 : DbSession) :
    (∀ out, check_user_inner env member guild_id cfg trigger s0 = .ok out →
      out.auto_populate_runs ≤ 1 ∧
      (∀ r, out.result = some r → 40 ≤ r.detection.total_score ∧
        r.detection.total_score = r.scores.total_score) ∧
      (out.best_score < 40 → out.result = none ∧ out.create_calls = 0 ∧
        out.session = s0)) ∧
    (∀ e, check_user_inner env member guild_id cfg trigger s0 = .error e →
      e.auto_populate_runs ≤ 1 ∧ e.session.committed = s0.committed ∧
      (e.best_score < 40 → e.create_calls = 0)) := by
  have hage := calculate_account_age_days member.created_at env.now_utc
  constructor
  · intro out hout
    simp only [check_user_inner] at hout
    split at hout
    · cases hout
    · cases hout
      refine ⟨by dsimp only; omega, ?_, ?_⟩
      · intro r hr
        cases hr
      · intro _
        exact ⟨rfl, rfl, rfl⟩
    · split at hout
      · cases hout
      · cases hout
        refine ⟨by dsimp only; omega, ?_, ?_⟩
        · intro r hr
          cases hr
        · intro _
          exact ⟨rfl, rfl, rfl⟩
      · split at hout
        · cases hout
        · rename_i cs1 _
          split at hout
          · split at hout
            · cases hout
            · split at hout
              · split at hout
                · cases hout
                · rename_i cs2 _
                  have hspec := (check_phase2_spec env member guild_id trigger
                    (calculate_account_age_days member.created_at env.now_utc)
                    (effective_bio member) s0 1 _ _
                    (scan_candidates_inv member.name (effective_bio member)
                      (calculate_account_age_days member.created_at env.now_utc)
                      cs2 _ (first_scan_inv env member cs1)).1).1 out hout
                  exact ⟨by simp [hspec.1], fun r hr =>
                    ⟨(hspec.2.1 r hr).1, (hspec.2.1 r hr).2.1⟩, hspec.2.2⟩
              · have hspec := (check_phase2_spec env member guild_id trigger
                  (calculate_account_age_days member.created_at env.now_utc)
                  (effective_bio member) s0 1 _ _
                  (first_scan_inv env member cs1).1).1 out hout
                exact ⟨by simp [hspec.1], fun r hr =>
                    ⟨(hspec.2.1 r hr).1, (hspec.2.1 r hr).2.1⟩, hspec.2.2⟩
          · have hspec := (check_phase2_spec env member guild_id trigger
              (calculate_account_age_days member.created_at env.now_utc)
              (effective_bio member) s0 0 _ _
              (first_scan_inv env member cs1).1).1 out hout
            exact ⟨by simp [hspec.1], fun r hr =>
                    ⟨(hspec.2.1 r hr).1, (hspec.2.1 r hr).2.1⟩, hspec.2.2⟩
  · intro e he
    simp only [check_user_inner] at he
    split at he
    · cases he
      exact ⟨by dsimp only; omega, rfl, fun _ => rfl⟩
    · cases he
    · split at he
      · cases he
        exact ⟨by dsimp only; omega, rfl, fun _ => rfl⟩
      · cases he
      · split at he
        · cases he
          exact ⟨by dsimp only; omega, rfl, fun _ => rfl⟩
        · rename_i cs1 _
          split at he
          · split at he
            · cases he
              exact ⟨by dsimp only; omega, rfl, fun _ => rfl⟩
            · split at he
              · split at he
                · cases he
                  exact ⟨by dsimp only; omega, rfl, fun _ => rfl⟩
                · rename_i cs2 _
                  have hspec := (check_phase2_spec env member guild_id trigger
                    (calculate_account_age_days member.created_at env.now_utc)
                    (effective_bio member) s0 1 _ _
                    (scan_candidates_inv member.name (effective_bio member)
                      (calculate_account_age_days member.created_at env.now_utc)
                      cs2 _ (first_scan_inv env member cs1)).1).2 e he
                  exact ⟨by simp [hspec.1], hspec.2.1,
                    fun hlt => absurd hlt (not_lt.mpr hspec.2.2.1)⟩
              · have hspec := (check_phase2_spec env member guild_id trigger
                  (calculate_account_age_days member.created_at env.now_utc)
                  (effective_bio member) s0 1 _ _
                  (first_scan_inv env member cs1).1).2 e he
                exact ⟨by simp [hspec.1], hspec.2.1,
                    fun hlt => absurd hlt (not_lt.mpr hspec.2.2.1)⟩
          · have hspec := (check_phase2_spec env member guild_id trigger
              (calculate_account_age_days member.created_at env.now_utc)
              (effective_bio member) s0 0 _ _
              (first_scan_inv env member cs1).1).2 e he
            exact ⟨by simp [hspec.1], hspec.2.1,
                    fun hlt => absurd hlt (not_lt.mpr hspec.2.2.1)⟩

/-! ### C1: a Detection is created only at total score 40 or above -/

/-- Claim C1: `check_user` returns a detection only when its total score is
at least 40, and on a check whose final best score is below 40 it returns
nothing, issues no persistence create call, and commits nothing. -/
theorem C1_detection_threshold :
    ∀ (env : CheckEnv) (member : Member) (guild_id : ℤ) (cfg : GuildConfig)
      (trigger : String) (s0 : DbSession),
      (∀ r, (check_user env member guild_id cfg trigger s0).result = some r →
        40 ≤ r.detection.total_score ∧
          r.detection.total_score = r.scores.total_score) ∧
      ((check_user env member guild_id cfg trigger s0).best_score < 40 →
        (check_user env member guild_id cfg trigger s0).result = none ∧
        (check_user env member guild_id cfg trigger s0).create_calls = 0 ∧
        (check_user env member guild_id cfg trigger s0).session.committed =
          s0.committed) := by
  intro env member guild_id cfg trigger s0
  unfold check_user
  cases hin : check_user_inner env member guild_id cfg trigger s0 with
  | ok out =>
    have hspec := (check_user_inner_spec env member guild_id cfg trigger s0).1 out hin
    refine ⟨hspec.2.1, ?_⟩
    intro hlt
    have h := hspec.2.2 hlt
    exact ⟨h.1, h.2.1, by rw [h.2.2]⟩
  | error e =>
    have hspec := (check_user_inner_spec env member guild_id cfg trigger s0).2 e hin
    dsimp only
    refine ⟨?_, ?_⟩
    · intro r hr
      cases hr
    · intro hlt
      exact ⟨rfl, hspec.2.2 hlt, hspec.2.1⟩

unseal Rat.add Rat.mul Rat.sub Rat.inv in
/-- Witness for C1: a whitelisted check ends with best score 0, so the
below-threshold conclusions hold on it. -/
theorem C1_witness :
    (check_user ⟨0, .ok true, .ok [], .ok 0, .ok [], none, .ok (), .ok ()⟩
      ⟨1, "alice", "alice", [], none, ⟨0, some 0⟩, false⟩ 7 ⟨none⟩ "join"
      ⟨[], []⟩).result = none ∧
    (check_user ⟨0, .ok true, .ok [], .ok 0, .ok [], none, .ok (), .ok ()⟩
      ⟨1, "alice", "alice", [], none, ⟨0, some 0⟩, false⟩ 7 ⟨none⟩ "join"
      ⟨[], []⟩).create_calls = 0 ∧
    (check_user ⟨0, .ok true, .ok [], .ok 0, .ok [], none, .ok (), .ok ()⟩
      ⟨1, "alice", "alice", [], none, ⟨0, some 0⟩, false⟩ 7 ⟨none⟩ "join"
      ⟨[], []⟩).session.committed = (⟨[], []⟩ : DbSession).committed :=
  (C1_detection_threshold ⟨0, .ok true, .ok [], .ok 0, .ok [], none, .ok (), .ok ()⟩
    ⟨1, "alice", "alice", [], none, ⟨0, some 0⟩, false⟩ 7 ⟨none⟩ "join"
    ⟨[], []⟩).2 (by decide)

/-! ### C5: check_user never raises and rolls back on failure -/

/-- Claim C5: whenever the body of `check_user` raises (any failure of the
whitelist lookup, candidate searches, auto-populate, create or commit), the
call still returns normally with no detection, the session is rolled back
(no pending write survives), and the committed writes are exactly those
committed before the call. -/
theorem C5_fail_safe :
    ∀ (env : CheckEnv) (member : Member) (guild_id : ℤ) (cfg : GuildConfig)
      (trigger : String) (s0 : DbSession) (e : ErrInfo),
      check_user_inner env member guild_id cfg trigger s0 = .error e →
        (check_user env member guild_id cfg trigger s0).result = none ∧
        (check_user env member guild_id cfg trigger s0).session.pending = [] ∧
        (check_user env member guild_id cfg trigger s0).session.committed =
          s0.committed ∧
        (check_user env member guild_id cfg trigger s0).rolled_back = true := by
  intro env member guild_id cfg trigger s0 e he
  have hspec := (check_user_inner_spec env member guild_id cfg trigger s0).2 e he
  unfold check_user
  rw [he]
  exact ⟨rfl, rfl, hspec.2.1, rfl⟩

unseal Rat.add Rat.mul Rat.sub Rat.inv in
/-- Witness for C5: a check whose whitelist lookup raises returns no
detection and a rolled-back session. -/
theorem C5_witness :
    (check_user ⟨0, .error "db down", .ok [], .ok 0, .ok [], none, .ok (), .ok ()⟩
      ⟨1, "alice", "alice", [], none, ⟨0, some 0⟩, false⟩ 7 ⟨none⟩ "join"
      ⟨[], []⟩).result = none ∧
    (check_user ⟨0, .error "db down", .ok [], .ok 0, .ok [], none, .ok (), .ok ()⟩
      ⟨1, "alice", "alice", [], none, ⟨0, some 0⟩, false⟩ 7 ⟨none⟩ "join"
      ⟨[], []⟩).session.pending = [] ∧
    (check_user ⟨0, .error "db down", .ok [], .ok 0, .ok [], none, .ok (), .ok ()⟩
      ⟨1, "alice", "alice", [], none, ⟨0, some 0⟩, false⟩ 7 ⟨none⟩ "join"
      ⟨[], []⟩).session.committed = (⟨[], []⟩ : DbSession).committed ∧
    (check_user ⟨0, .error "db down", .ok [], .ok 0, .ok [], none, .ok (), .ok ()⟩
      ⟨1, "alice", "alice", [], none, ⟨0, some 0⟩, false⟩ 7 ⟨none⟩ "join"
      ⟨[], []⟩).rolled_back = true :=
  C5_fail_safe ⟨0, .error "db down", .ok [], .ok 0, .ok [], none, .ok (), .ok ()⟩
    ⟨1, "alice", "alice", [], none, ⟨0, some 0⟩, false⟩ 7 ⟨none⟩ "join"
    ⟨[], []⟩ ⟨⟨[], []⟩, 0, 0, 0⟩ rfl

/-! ### C4: when auto-populate triggers -/

theorem check_user_inner_runs (env : CheckEnv) (member : Member) (guild_id : ℤ)
    (cfg : GuildConfig) (trigger : String) (s0 : DbSession)
    (hwl : env.whitelisted = .ok false)
    (htr : trusted_role_check cfg member = .ok false)
    (cs1 : List StreamerCache) (hfs : env.first_search = .ok cs1) :
    (∀ out, check_user_inner env member guild_id cfg trigger s0 = .ok out →
      out.auto_populate_runs =
        if (((scan_candidates member.name (effective_bio member)
            (calculate_account_age_days member.created_at env.now_utc) cs1
            (none, 0)).2 : ℚ) < min_similarity_threshold ∨
          (scan_candidates member.name (effective_bio member)
            (calculate_account_age_days member.created_at env.now_utc) cs1
            (none, 0)).1 = none) then 1 else 0) ∧
    (∀ e, check_user_inner env member guild_id cfg trigger s0 = .error e →
      e.auto_populate_runs =
        if (((scan_candidates member.name (effective_bio member)
            (calculate_account_age_days member.created_at env.now_utc) cs1
            (none, 0)).2 : ℚ) < min_similarity_threshold ∨
          (scan_candidates member.name (effective_bio member)
            (calculate_account_age_days member.created_at env.now_utc) cs1
            (none, 0)).1 = none) then 1 else 0) := by
  constructor
  · intro out hout
    simp only [check_user_inner, hwl, htr, hfs] at hout
    split at hout
    · rename_i hcond
      rw [if_pos hcond]
      split at hout
      · cases hout
      · split at hout
        · split at hout
          · cases hout
          · rename_i cs2 _
            exact ((check_phase2_spec env member guild_id trigger
              (calculate_account_age_days member.created_at env.now_utc)
              (effective_bio member) s0 1 _ _
              (scan_candidates_inv member.name (effective_bio member)
                (calculate_account_age_days member.created_at env.now_utc)
                cs2 _ (first_scan_inv env member cs1)).1).1 out hout).1
        · exact ((check_phase2_spec env member guild_id trigger
            (calculate_account_age_days member.created_at env.now_utc)
            (effective_bio member) s0 1 _ _
            (first_scan_inv env member cs1).1).1 out hout).1
    · rename_i hcond
      rw [if_neg hcond]
      exact ((check_phase2_spec env member guild_id trigger
        (calculate_account_age_days member.created_at env.now_utc)
        (effective_bio member) s0 0 _ _
        (first_scan_inv env member cs1).1).1 out hout).1
  · intro e he
    simp only [check_user_inner, hwl, htr, hfs] at he
    split at he
    · rename_i hcond
      rw [if_pos hcond]
      split at he
      · cases he
        rfl
      · split at he
        · split at he
          · cases he
            rfl
          · rename_i cs2 _
            exact ((check_phase2_spec env member guild_id trigger
              (calculate_account_age_days member.created_at env.now_utc)
              (effective_bio member) s0 1 _ _
              (scan_candidates_inv member.name (effective_bio member)
                (calculate_account_age_days member.created_at env.now_utc)
                cs2 _ (first_scan_inv env member cs1)).1).2 e he).1
        · exact ((check_phase2_spec env member guild_id trigger
            (calculate_account_age_days member.created_at env.now_utc)
            (effective_bio member) s0 1 _ _
            (first_scan_inv env member cs1).1).2 e he).1
    · rename_i hcond
      rw [if_neg hcond]
      exact ((check_phase2_spec env member guild_id trigger
        (calculate_account_age_days member.created_at env.now_utc)
        (effective_bio member) s0 0 _ _
        (first_scan_inv env member cs1).1).2 e he).1

theorem populate_cond_iff (env : CheckEnv) (member : Member)
    (cs1 : List StreamerCache) :
    ((((scan_candidates member.name (effective_bio member)
        (calculate_account_age_days member.created_at env.now_utc) cs1
        (none, 0)).2 : ℚ) < min_similarity_threshold ∨
      (scan_candidates member.name (effective_bio member)
        (calculate_account_age_days member.created_at env.now_utc) cs1
        (none, 0)).1 = none) ↔
      (scan_candidates member.name (effective_bio member)
        (calculate_account_age_days member.created_at env.now_utc) cs1
        (none, 0)).2 < 65) := by
  have hinv := first_scan_inv env member cs1
  unfold min_similarity_threshold
  constructor
  · rintro (h | h)
    · exact_mod_cast h
    · rw [hinv.2 h]
      norm_num
  · intro h
    left
    exact_mod_cast h

unseal Rat.add Rat.mul Rat.sub Rat.inv in
/-- Counterexample to C4: a check where the only cached candidate reaches
username similarity 82.94 (well above the 65.0 floor), yet auto-populate
still runs, because the trigger condition compares the best total risk score
(here 20) against 65, not the username similarity. -/
theorem C4_counterexample :
    calculate_username_similarity "alice" "alicey" ≥ 65 ∧
    (check_user
      ⟨1000000000, .ok false, .ok [⟨"100", "alicey", none, 0, none, true, none, 0⟩],
        .ok 0, .ok [], none, .ok (), .ok ()⟩
      ⟨1, "alice", "alice", [], none, ⟨0, some 0⟩, false⟩ 7 ⟨none⟩ "join"
      ⟨[], []⟩).auto_populate_runs = 1 := by decide

/-- Claim C4 (amended): auto-populate runs at most once per check, and on a
check that reaches candidate scanning it is triggered exactly when the best
total score of the first scan pass is below 65 — in particular also when a
candidate did clear the 65 percent username-similarity floor but its total
risk score stayed below 65. -/
theorem C4_auto_populate_once_iff :
    ∀ (env : CheckEnv) (member : Member) (guild_id : ℤ) (cfg : GuildConfig)
      (trigger : String) (s0 : DbSession),
      (check_user env member guild_id cfg trigger s0).auto_populate_runs ≤ 1 ∧
      (env.whitelisted = .ok false →
        trusted_role_check cfg member = .ok false →
        ∀ cs1, env.first_search = .ok cs1 →
          ((check_user env member guild_id cfg trigger s0).auto_populate_runs = 1 ↔
            (scan_candidates member.name (effective_bio member)
              (calculate_account_age_days member.created_at env.now_utc) cs1
              (none, 0)).2 < 65)) := by
  intro env member guild_id cfg trigger s0
  constructor
  · unfold check_user
    cases hin : check_user_inner env member guild_id cfg trigger s0 with
    | ok out =>
      exact ((check_user_inner_spec env member guild_id cfg trigger s0).1 out hin).1
    | error e =>
      have := ((check_user_inner_spec env member guild_id cfg trigger s0).2 e hin).1
      dsimp only
      exact this
  · intro hwl htr cs1 hfs
    have hiff := populate_cond_iff env member cs1
    unfold check_user
    cases hin : check_user_inner env member guild_id cfg trigger s0 with
    | ok out =>
      have hruns := (check_user_inner_runs env member guild_id cfg trigger s0
        hwl htr cs1 hfs).1 out hin
      rw [hruns]
      constructor
      · intro h1
        by_contra hneg
        rw [if_neg (fun hc => hneg (hiff.mp hc))] at h1
        exact absurd h1 (by norm_num)
      · intro h
        rw [if_pos (hiff.mpr h)]
    | error e =>
      have hruns := (check_user_inner_runs env member guild_id cfg trigger s0
        hwl htr cs1 hfs).2 e hin
      dsimp only
      rw [hruns]
      constructor
      · intro h1
        by_contra hneg
        rw [if_neg (fun hc => hneg (hiff.mp hc))] at h1
        exact absurd h1 (by norm_num)
      · intro h
        rw [if_pos (hiff.mpr h)]

unseal Rat.add Rat.mul Rat.sub Rat.inv in
/-- Witness for C4: the equivalence applied on the concrete low-scoring
cache, both directions discharged by evaluation. -/
theorem C4_witness :
    (check_user
      ⟨1000000000, .ok false, .ok [⟨"100", "alicey", none, 0, none, true, none, 0⟩],
        .ok 0, .ok [], none, .ok (), .ok ()⟩
      ⟨1, "alice", "alice", [], none, ⟨0, some 0⟩, false⟩ 7 ⟨none⟩ "join"
      ⟨[], []⟩).auto_populate_runs = 1 :=
  ((C4_auto_populate_once_iff
    ⟨1000000000, .ok false, .ok [⟨"100", "alicey", none, 0, none, true, none, 0⟩],
      .ok 0, .ok [], none, .ok (), .ok ()⟩
    ⟨1, "alice", "alice", [], none, ⟨0, some 0⟩, false⟩ 7 ⟨none⟩ "join"
    ⟨[], []⟩).2 rfl rfl [⟨"100", "alicey", none, 0, none, true, none, 0⟩] rfl).mpr
    (by decide)

end StreamerVerification
